import Mathlib

/-!
Shallow embedding of `src/CalculatorAgent/main.py`: three arithmetic tool
functions (`add`, `multiply`, `divide`), the static tool descriptors derived
from their signatures, environment-based configuration, and the
`run_server` bootstrap with its try/finally credential cleanup.
-/

namespace CalculatorAgent

/-- Python exceptions that the embedded code can raise.  `zeroDivisionError`
is raised by `a / b` when `b == 0`; `runtimeError` stands for any failure
surfaced by the external SDK calls inside `run_server`'s `try` block. -/
inductive PyError where
  | zeroDivisionError
  | runtimeError
  deriving DecidableEq, Repr

/-- Embedding of `multiply` (main.py lines 27-37): `return a * b`. -/
def multiply (a b : ℤ) : ℤ := a * b

/-- Embedding of `add` (main.py lines 40-50): `return a + b`. -/
def add (a b : ℤ) : ℤ := a + b

/-- Embedding of `divide` (main.py lines 53-63): `return a / b`.  Python's
true division of two ints raises `ZeroDivisionError` when `b == 0` and
otherwise yields the real quotient, embedded here as a rational. -/
def divide (a b : ℤ) : Except PyError ℚ :=
  if b = 0 then .error .zeroDivisionError
  else .ok ((a : ℚ) / (b : ℚ))

/-- Semantic parameter type recorded in a tool's `Annotated` signature. -/
inductive PyType where
  | int
  | float
  deriving DecidableEq, Repr

/-- One parameter of a tool: its name, its annotated semantic type, and the
natural-language hint string from the `Annotated` metadata. -/
structure ToolParam where
  name : String
  ty : PyType
  hint : String
  deriving DecidableEq, Repr

/-- Static descriptor of a function registered as an agent tool, derived
from the function's signature in main.py. -/
structure ToolDecl where
  name : String
  params : List ToolParam
  ret : PyType
  deriving DecidableEq, Repr

/-- Descriptor of `add` (main.py lines 40-43). -/
def add_tool : ToolDecl :=
  { name := "add"
    params := [⟨"a", .int, "The first integer to add"⟩,
               ⟨"b", .int, "The second integer to add"⟩]
    ret := .int }

/-- Descriptor of `multiply` (main.py lines 27-30). -/
def multiply_tool : ToolDecl :=
  { name := "multiply"
    params := [⟨"a", .int, "The first integer to multiply"⟩,
               ⟨"b", .int, "The second integer to multiply"⟩]
    ret := .int }

/-- Descriptor of `divide` (main.py lines 53-56). -/
def divide_tool : ToolDecl :=
  { name := "divide"
    params := [⟨"a", .int, "The dividend (numerator)"⟩,
               ⟨"b", .int, "The divisor (denominator)"⟩]
    ret := .float }

/-- Embedding of `tools = [add, multiply, divide]` (main.py line 67). -/
def tools : List ToolDecl := [add_tool, multiply_tool, divide_tool]

/-- The process environment after `load_dotenv`, as a partial map from
variable names to values. -/
def Env : Type := String → Option String

/-- Embedding of Python's `os.getenv(name, default)`. -/
def getenv (env : Env) (name default : String) : String :=
  (env name).getD default

/-- Embedding of `ENDPOINT = os.getenv("FOUNDRY_PROJECT_ENDPOINT", "")`
(main.py line 22). -/
def ENDPOINT (env : Env) : String :=
  getenv env "FOUNDRY_PROJECT_ENDPOINT" ""

/-- Embedding of `MODEL_DEPLOYMENT_NAME =
os.getenv("FOUNDRY_MODEL_DEPLOYMENT_NAME", "")` (main.py line 23). -/
def MODEL_DEPLOYMENT_NAME (env : Env) : String :=
  getenv env "FOUNDRY_MODEL_DEPLOYMENT_NAME" ""

/-- The agent client constructed by `AzureAIAgentClient(...)` (main.py
lines 76-80): it records the endpoint and model deployment name it was
bound to. -/
structure Client where
  project_endpoint : String
  model_deployment_name : String
  deriving DecidableEq, Repr

/-- A configured agent as assembled by `client.create_agent(...)` (main.py
lines 83-88): a name, a model identifier, an instruction prompt, and the
registered tool descriptors. -/
structure Agent where
  name : String
  model : String
  instructions : String
  tools : List ToolDecl
  deriving DecidableEq, Repr

/-- The exact instruction string passed to `create_agent` (main.py line 86). -/
def agent_instructions : String :=
  "You are a helpful assistant tasked with performing arithmetic on a set of inputs. Use the provided tools to perform calculations."

/-- The agent value produced by a successful `client.create_agent(...)`
call (main.py lines 83-88). -/
def mkAgent (c : Client) : Agent :=
  { name := "CalculatorAgentAF"
    model := c.model_deployment_name
    instructions := agent_instructions
    tools := tools }

/-- Fault model for the three awaited SDK calls inside `run_server`'s
`try` block: each flag says whether that call raises. -/
structure FaultModel where
  clientFails : Bool
  agentFails : Bool
  serveFails : Bool
  deriving DecidableEq, Repr

/-- Embedding of the `AzureAIAgentClient(...)` constructor call (main.py
lines 76-80), which may raise (e.g. credential or network failure). -/
def azureAIAgentClient (f : FaultModel) (endpoint model : String) :
    Except PyError Client :=
  if f.clientFails then .error .runtimeError
  else .ok { project_endpoint := endpoint, model_deployment_name := model }

/-- Embedding of the `client.create_agent(...)` call (main.py lines 83-88),
which may raise. -/
def create_agent (f : FaultModel) (c : Client) : Except PyError Agent :=
  if f.agentFails then .error .runtimeError
  else .ok (mkAgent c)

/-- Embedding of `from_agent_framework(agent).run_async()` (main.py
line 94), which may raise during server startup or serving. -/
def run_async (f : FaultModel) (_ : Agent) : Except PyError Unit :=
  if f.serveFails then .error .runtimeError
  else .ok ()

/-- State of the credential object created by `DefaultAzureCredential()`:
how many times its `close()` routine has been invoked. -/
structure Credential where
  closes : Nat
  deriving DecidableEq, Repr

/-- Embedding of `await credential.close()` (main.py line 96). -/
def Credential.close (cred : Credential) : Credential :=
  { closes := cred.closes + 1 }

/-- Observable result of one run of `run_server`: the final credential
state and the outcome of the `try` body (normal return or propagated
exception). -/
structure RunTrace where
  credential : Credential
  outcome : Except PyError Unit
  deriving Repr

/-- Embedding of `run_server` (main.py lines 70-96): create the credential,
run the `try` body (client construction, agent creation, serving), and in
the `finally` block close the credential whether or not the body raised;
the body's exception, if any, is re-raised after the cleanup. -/
def run_server (f : FaultModel) (env : Env) : RunTrace :=
  let credential : Credential := { closes := 0 }
  let body : Except PyError Unit := do
    let client ← azureAIAgentClient f (ENDPOINT env) (MODEL_DEPLOYMENT_NAME env)
    let agent ← create_agent f client
    run_async f agent
  { credential := credential.close, outcome := body }

end CalculatorAgent

namespace CalculatorAgent

/-- C1: for all integers a and b with b ≠ 0, `divide(a, b)` returns the
real-number quotient a / b; in particular `divide(10, 2)` returns 5. -/
theorem divide_eq_quotient (a b : ℤ) (hb : b ≠ 0) :
    divide a b = .ok ((a : ℚ) / (b : ℚ)) ∧ divide 10 2 = .ok 5 := by
  constructor
  · simp [divide, hb]
  · simp [divide]
    norm_num

/-- C1 witness: the theorem instantiated at a = 10, b = 2. -/
theorem divide_eq_quotient_witness :
    divide 10 2 = .ok ((10 : ℚ) / (2 : ℚ)) ∧ divide 10 2 = .ok 5 :=
  divide_eq_quotient 10 2 (by decide)

/-- C2: for every integer a, `divide(a, 0)` raises a division-by-zero
error that propagates to the caller; no result value is produced. -/
theorem divide_zero_raises (a : ℤ) :
    divide a 0 = .error .zeroDivisionError := by
  simp [divide]

/-- C3: for all integers a and b, `add(a, b)` returns exactly the integer
sum a + b; in particular `add(2, 3)` returns 5. -/
theorem add_eq_sum (a b : ℤ) :
    add a b = a + b ∧ add 2 3 = 5 := by
  constructor
  · rfl
  · decide

/-- C4: for all integers a and b, `multiply(a, b)` returns exactly the
integer product a * b; in particular `multiply(4, 5)` returns 20. -/
theorem multiply_eq_product (a b : ℤ) :
    multiply a b = a * b ∧ multiply 4 5 = 20 := by
  constructor
  · rfl
  · decide

/-- C5: in every run of `run_server` — including those where client
construction, agent creation, or server startup raises — the credential's
`close()` routine is invoked exactly once. -/
theorem credential_closed_once (f : FaultModel) (env : Env) :
    (run_server f env).credential.closes = 1 := rfl

/-- C6: the tool registration passed to the agent exposes exactly three
tools named `add`, `multiply`, `divide`, each taking two integer
parameters. -/
theorem tools_registration :
    tools.length = 3 ∧
    tools.map ToolDecl.name = ["add", "multiply", "divide"] ∧
    ∀ t ∈ tools, t.params.length = 2 ∧ ∀ p ∈ t.params, p.ty = PyType.int := by
  refine ⟨rfl, rfl, ?_⟩
  decide

/-- C7 counterexample: the agent's instruction prompt is not the string
"perform arithmetic using the provided tools" claimed by the spec. -/
theorem agent_instructions_ne_spec_quote :
    (mkAgent { project_endpoint := "", model_deployment_name := "" }).instructions ≠
      "perform arithmetic using the provided tools" := by
  decide

/-- C7 (amended): the single agent created at startup is named
"CalculatorAgentAF", its instructions are the full prompt "You are a
helpful assistant tasked with performing arithmetic on a set of inputs.
Use the provided tools to perform calculations.", and it is backed by the
three tools `add`, `multiply`, `divide`. -/
theorem agent_configuration (c : Client) :
    (mkAgent c).name = "CalculatorAgentAF" ∧
    (mkAgent c).instructions = agent_instructions ∧
    (mkAgent c).tools.map ToolDecl.name = ["add", "multiply", "divide"] := by
  exact ⟨rfl, rfl, rfl⟩

/-- C8: `ENDPOINT` and `MODEL_DEPLOYMENT_NAME` are read from the
environment variables `FOUNDRY_PROJECT_ENDPOINT` and
`FOUNDRY_MODEL_DEPLOYMENT_NAME`, each defaulting to the empty string when
the variable is unset. -/
theorem config_from_env (env : Env) :
    ENDPOINT env = (env "FOUNDRY_PROJECT_ENDPOINT").getD "" ∧
    MODEL_DEPLOYMENT_NAME env = (env "FOUNDRY_MODEL_DEPLOYMENT_NAME").getD "" ∧
    (env "FOUNDRY_PROJECT_ENDPOINT" = none → ENDPOINT env = "") ∧
    (env "FOUNDRY_MODEL_DEPLOYMENT_NAME" = none → MODEL_DEPLOYMENT_NAME env = "") := by
  refine ⟨rfl, rfl, ?_, ?_⟩ <;>
    intro h <;> simp [ENDPOINT, MODEL_DEPLOYMENT_NAME, getenv, h]

/-- C8 witness: in the empty environment both configuration values are the
empty string. -/
theorem config_from_env_witness :
    ENDPOINT (fun _ => none) = "" ∧ MODEL_DEPLOYMENT_NAME (fun _ => none) = "" :=
  ⟨(config_from_env (fun _ => none)).2.2.1 rfl,
   (config_from_env (fun _ => none)).2.2.2 rfl⟩

/-- C9: `add` is commutative and associative when chained. -/
theorem add_comm_assoc (a b c : ℤ) :
    add a b = add b a ∧ add (add a b) c = add a (add b c) := by
  unfold add
  exact ⟨Int.add_comm a b, Int.add_assoc a b c⟩

/-- C10: `multiply` is commutative, 1 is an identity for `multiply`, and
0 is an identity for `add`. -/
theorem multiply_comm_one_identity (a b : ℤ) :
    multiply a b = multiply b a ∧ multiply a 1 = a ∧ add a 0 = a := by
  unfold multiply add
  exact ⟨Int.mul_comm a b, Int.mul_one a, Int.add_zero a⟩

end CalculatorAgent
